import Mathlib

/-!
Verification of the LLMCouncil pipeline orchestrator against its
natural-language specification.  The Python services under
`backend/app/` are shallowly embedded as executable Lean definitions:

* `AggregatorService.aggregate` / `_calculate_consensus`
  (`services/aggregator.py`) — `aggregate`, `consensusScore`;
* `ReviewerService.review_claims` / `_validate_review` / `_fallback_reviews`
  (`services/reviewers.py`) — `reviewClaims`, `validateReview`,
  `fallbackReviews`;
* `PipelineOrchestrator._run_review`, `_parse_stage1_response`,
  `_fallback_chairman`, `run_pipeline` statistics/cache handling
  (`services/orchestrator.py`) — `runReview`, `parseStage1Response`,
  `fallbackChairmanOrch`, `runPipeline`;
* `ChairmanService.synthesize` / `_fallback_synthesis`
  (`services/chairman.py`) — `chairmanSynthesize`, `fallbackSynthesis`;
* `ParaphraseService._fallback_extraction` (`services/paraphrase.py`)
  — `fallbackExtraction`;
* `handle_pipeline_error` (`utils/error_handler.py`) — `statusCode`;
* `ResponseCache.get` / `ResponseCache.set` (`utils/cache.py`)
  — `cacheGet`, `cacheSet`.

Machine floats of the source are modelled as rationals; Python's
`round(x, 3)` is modelled as round-half-to-even on rationals.
Backend I/O and `json.loads` are external to the embedding and appear
as explicit outcome parameters (an `Option`/sum of the parsed shape).
-/

/-- The floor of a rational, written on `num`/`den` so that it reduces
by computation. -/
def ratFloor (q : ℚ) : ℤ := Int.fdiv q.num q.den

/-- Python `round` to 3 decimals, modelled on rationals with
round-half-to-even tie breaking (banker's rounding). -/
def roundHalfEven (q : ℚ) : ℤ :=
  if q - (ratFloor q : ℚ) < 1/2 then ratFloor q
  else if q - (ratFloor q : ℚ) > 1/2 then ratFloor q + 1
  else if ratFloor q % 2 = 0 then ratFloor q else ratFloor q + 1

/-- `round(x, 3)` of the source, on rationals. -/
def round3 (q : ℚ) : ℚ := (roundHalfEven (q * 1000) : ℚ) / 1000

/-- Python `s.upper()`, written on the character list so that it
reduces by computation. -/
def pyUpper (s : String) : String := ⟨s.data.map Char.toUpper⟩

/-- Python `s.lower()`. -/
def pyLower (s : String) : String := ⟨s.data.map Char.toLower⟩

/-- Python `s.strip()`: drop whitespace from both ends. -/
def pyStrip (s : String) : String :=
  ⟨((s.data.dropWhile Char.isWhitespace).reverse.dropWhile
      Char.isWhitespace).reverse⟩

/-- Python `s[:n]` (slicing counts code points). -/
def pyTake (s : String) (n : Nat) : String := ⟨s.data.take n⟩

/-- Python `s.split('.')`: split on every dot, keeping empty pieces. -/
def pySplitOnDot (s : String) : List String :=
  (s.data.splitOn '.').map String.mk

/-- Python `" ".join(l)`. -/
def pyJoinSpace (l : List String) : String :=
  ⟨List.intercalate [' '] (l.map (·.data))⟩

/-- Python `len(s.split())`: number of maximal non-whitespace runs. -/
def pyWordCount (s : String) : Nat :=
  ((s.data.splitOnP Char.isWhitespace).filter (· ≠ [])).length

/-- One review item as formatted by `ReviewerService.review_claims`
(`reviewers.py` lines 66-72): `claim_id`, upper-cased `verdict`,
`reason`, `evidence_needed`, `confidence`. -/
structure Review where
  claim_id : String
  verdict : String
  reason : String
  evidence_needed : Bool
  confidence : ℚ
deriving DecidableEq, Repr

/-- One paraphrased claim as built by `ParaphraseService`
(`paraphrase.py` lines 59-65 and 111-117). -/
structure ParaClaim where
  claim_id : String
  original_model : String
  original_text : String
  canonical_text : String
  word_count : Nat
deriving DecidableEq, Repr

/-- One reviewer verdict dict (`reviewers.py` lines 74-81 and 142-149).
The metadata is reduced to the `fallback` flag; `total_reviewed` is
`reviews.length` by construction. -/
structure ReviewerVerdict where
  reviewer_name : String
  reviews : List Review
  fallback : Bool
deriving DecidableEq, Repr

/-- Appending one review into the insertion-ordered
`reviews_by_claim` association list: Python's
`defaultdict(list)` keyed by `claim_id` with dict insertion order
(`aggregator.py` lines 32-36). -/
def insertReview (acc : List (String × List Review)) (r : Review) :
    List (String × List Review) :=
  if acc.any (fun p => p.1 = r.claim_id) then
    acc.map (fun p => if p.1 = r.claim_id then (p.1, p.2 ++ [r]) else p)
  else
    acc ++ [(r.claim_id, [r])]

/-- `reviews_by_claim` built by the nested loops of
`aggregator.py` lines 34-36, preserving first-appearance key order. -/
def reviewsByClaim (verdicts : List ReviewerVerdict) :
    List (String × List Review) :=
  ((verdicts.map (·.reviews)).flatten).foldl insertReview []

/-- `claim_lookup[claim_id]` of `aggregator.py` line 46: a Python dict
comprehension keeps the last claim with a given id. -/
def lookupClaim (claims : List ParaClaim) (cid : String) : Option ParaClaim :=
  claims.reverse.find? (fun c => c.claim_id = cid)

/-- `verdict_counts.get(v, 0)` of `aggregator.py` lines 56, 63-65. -/
def countVerdict (reviews : List Review) (v : String) : Nat :=
  (reviews.filter (fun r => r.verdict = v)).length

/-- The four aggregation buckets. -/
inductive Bucket
  | supported
  | rejected
  | disputed
  | uncertain
deriving DecidableEq, Repr

instance : Fintype Bucket :=
  ⟨⟨{Bucket.supported, Bucket.rejected, Bucket.disputed, Bucket.uncertain}, by decide⟩,
   by intro x; cases x <;> decide⟩

/-- The verdict-count branch chain of `aggregator.py` lines 69-91. -/
def categorize (reviews : List Review) : Bucket :=
  let correct := countVerdict reviews "CORRECT"
  let incorrect := countVerdict reviews "INCORRECT"
  let uncertain := countVerdict reviews "UNCERTAIN"
  let total := reviews.length
  if correct = total then .supported
  else if incorrect = total then .rejected
  else if uncertain = total then .uncertain
  else if correct > incorrect ∧ correct > uncertain then .supported
  else if incorrect > correct ∧ incorrect > uncertain then .rejected
  else .disputed

/-- Accumulator of the categorization loop (`aggregator.py` lines 39-43). -/
structure AggLists where
  supported : List String
  rejected : List String
  disputed : List String
  uncertain : List String
  evidence : Nat
deriving DecidableEq, Repr

/-- One iteration of the `for claim_id, reviews in reviews_by_claim.items()`
loop (`aggregator.py` lines 49-91): skip unknown ids, count evidence,
append the canonical text to the bucket chosen by the verdict counts. -/
def aggStep (claims : List ParaClaim) (acc : AggLists)
    (p : String × List Review) : AggLists :=
  match lookupClaim claims p.1 with
  | none => acc
  | some c =>
    let acc :=
      if p.2.any (fun r => r.evidence_needed) then
        { acc with evidence := acc.evidence + 1 }
      else acc
    match categorize p.2 with
    | .supported => { acc with supported := acc.supported ++ [c.canonical_text] }
    | .rejected => { acc with rejected := acc.rejected ++ [c.canonical_text] }
    | .disputed => { acc with disputed := acc.disputed ++ [c.canonical_text] }
    | .uncertain => { acc with uncertain := acc.uncertain ++ [c.canonical_text] }

/-- Python `len(set(verdicts)) == 1` (`aggregator.py` line 146): the
list is non-empty and all its elements are equal. -/
def unanimousB (l : List String) : Bool :=
  match l with
  | [] => false
  | v :: vs => vs.all (· = v)

/-- `AggregatorService._calculate_consensus` (`aggregator.py` lines
124-155): loop over `reviews_by_claim`, skip claims with fewer than two
reviews, count unanimous ones. Note the loop runs over all reviewed
claim ids, not only those present in the claims list. -/
def consensusScore (rbc : List (String × List Review)) (totalClaims : Nat) : ℚ :=
  if rbc = [] ∨ totalClaims = 0 then 0
  else
    let counts := rbc.foldl
      (fun (at_ : Nat × Nat) p =>
        if p.2.length < 2 then at_
        else
          ((if unanimousB (p.2.map (·.verdict)) then at_.1 + 1 else at_.1),
           at_.2 + 1))
      (0, 0)
    if counts.2 = 0 then 1/2
    else round3 ((counts.1 : ℚ) / (counts.2 : ℚ))

/-- The aggregation result dict (`aggregator.py` lines 100-108). -/
structure Aggregation where
  total_claims : Nat
  supported_claims : List String
  rejected_claims : List String
  disputed_claims : List String
  uncertain_claims : List String
  consensus_score : ℚ
  evidence_needed_count : Nat
deriving DecidableEq, Repr

/-- `AggregatorService.aggregate` (`aggregator.py` lines 13-118). -/
def aggregate (claims : List ParaClaim) (verdicts : List ReviewerVerdict) :
    Aggregation :=
  let rbc := reviewsByClaim verdicts
  let ls := rbc.foldl (aggStep claims) ⟨[], [], [], [], 0⟩
  { total_claims := claims.length
    supported_claims := ls.supported
    rejected_claims := ls.rejected
    disputed_claims := ls.disputed
    uncertain_claims := ls.uncertain
    consensus_score := consensusScore rbc claims.length
    evidence_needed_count := ls.evidence }

/-- Specification-level view of one bucket: the canonical texts of the
reviewed claim ids that are present in the claims list and whose verdict
counts select bucket `b`, in first-appearance order. -/
def bucketList (claims : List ParaClaim) (verdicts : List ReviewerVerdict)
    (b : Bucket) : List String :=
  (reviewsByClaim verdicts).filterMap (fun p =>
    match lookupClaim claims p.1 with
    | none => none
    | some c => if categorize p.2 = b then some c.canonical_text else none)

/-- Projection of `AggLists` on a bucket. -/
def AggLists.bucket (ls : AggLists) : Bucket → List String
  | .supported => ls.supported
  | .rejected => ls.rejected
  | .disputed => ls.disputed
  | .uncertain => ls.uncertain

/-- Projection of `Aggregation` on a bucket. -/
def Aggregation.bucket (a : Aggregation) : Bucket → List String
  | .supported => a.supported_claims
  | .rejected => a.rejected_claims
  | .disputed => a.disputed_claims
  | .uncertain => a.uncertain_claims

/-- A JSON value appearing in a raw review's `verdict` field: either a
string (on which Python `.upper()` succeeds) or some non-string value
(on which `.upper()` raises `AttributeError`). -/
inductive VerdVal
  | vstr (s : String)
  | vother
deriving DecidableEq, Repr

/-- A raw review's `confidence` field: absent (`dict.get` default),
present and accepted by Python `float(...)`, or present but rejected by
`float(...)` (which raises). -/
inductive ConfVal
  | absent
  | parseable (q : ℚ)
  | unparseable
deriving DecidableEq, Repr

/-- One raw item of `parsed["reviews"]` as consumed by
`ReviewerService.review_claims` (`reviewers.py` lines 64-72): each field
may be absent.  `claim_id` and `reason` are only ever read back
verbatim, so they are kept as optional strings. -/
structure RawReview where
  claim_id : Option String
  verdict : Option VerdVal
  reason : Option String
  evidence_needed : Option Bool
  confidence : ConfVal
deriving DecidableEq, Repr

/-- `ReviewerService._validate_review` (`reviewers.py` lines 92-102).
Returns `.ok b` for a normal boolean result; `.error ()` models the
`AttributeError` raised by `review["verdict"].upper()` when the verdict
field is present but not a string, which aborts the whole reviewer. -/
def validateReview (r : RawReview) : Except Unit Bool :=
  match r.claim_id, r.verdict, r.reason with
  | some _, some v, some _ =>
    match v with
    | .vstr s =>
      .ok (pyUpper s = "CORRECT" ∨ pyUpper s = "INCORRECT" ∨
           pyUpper s = "UNCERTAIN")
    | .vother => .error ()
  | _, _, _ => .ok false

/-- The review-formatting loop of `reviewers.py` lines 63-72: validated
items are kept with upper-cased verdict, defaulted `evidence_needed` and
`confidence`; `.error ()` models any exception escaping the loop
(non-string verdict, or `float()` on an unparseable confidence), which
sends the whole reviewer to its fallback. -/
def formatReviews : List RawReview → Except Unit (List Review)
  | [] => .ok []
  | r :: rest =>
    match validateReview r with
    | .error e => .error e
    | .ok keep =>
      match formatReviews rest with
      | .error e => .error e
      | .ok tail =>
        if keep then
          match r.claim_id, r.verdict, r.reason, r.confidence with
          | some cid, some (.vstr v), some reason, .absent =>
            .ok (⟨cid, pyUpper v, reason, r.evidence_needed.getD false, 1/2⟩ :: tail)
          | some cid, some (.vstr v), some reason, .parseable q =>
            .ok (⟨cid, pyUpper v, reason, r.evidence_needed.getD false, q⟩ :: tail)
          | _, _, _, _ => .error ()
        else .ok tail

/-- `ReviewerService._fallback_reviews` (`reviewers.py` lines 128-149):
one `UNCERTAIN` review per input claim with confidence 0.3. -/
def fallbackReviews (name : String) (claims : List ParaClaim) :
    ReviewerVerdict :=
  { reviewer_name := name
    reviews := claims.map (fun c =>
      ⟨c.claim_id, "UNCERTAIN", "Unable to verify due to reviewer error",
       true, 3/10⟩)
    fallback := true }

/-- Outcome of the backend call plus JSON extraction for one reviewer,
external to the embedding: the backend erred or both parse attempts
failed (`backendError`), the parsed object had no `reviews` list
(`ValidationError`, `noReviewsList`), or a list of raw items was
obtained. -/
inductive ReviewerInput
  | backendError
  | noReviewsList
  | parsed (items : List RawReview)
deriving DecidableEq, Repr

/-- `ReviewerService.review_claims` (`reviewers.py` lines 22-90): any
exception anywhere in the body — backend error, parse failure, missing
`reviews` list, non-string verdict, unparseable confidence — is caught
and answered with `_fallback_reviews`. -/
def reviewClaims (name : String) (claims : List ParaClaim)
    (input : ReviewerInput) : ReviewerVerdict :=
  match input with
  | .backendError => fallbackReviews name claims
  | .noReviewsList => fallbackReviews name claims
  | .parsed items =>
    match formatReviews items with
    | .error _ => fallbackReviews name claims
    | .ok reviews => { reviewer_name := name, reviews := reviews, fallback := false }

/-- `PipelineOrchestrator._run_review` (`orchestrator.py` lines
318-366).  `reviewClaims` is total, so no task result is ever an
exception and every verdict dict is truthy: the stage raises
`PipelineError("All reviewers failed")` exactly when no reviewer is
enabled.  Parallel and sequential dispatch produce the same list. -/
def runReview (enabledA enabledB : Bool) (claims : List ParaClaim)
    (inputA inputB : ReviewerInput) :
    Except String (List ReviewerVerdict) :=
  let verdicts :=
    (if enabledA then [reviewClaims "Reviewer_A" claims inputA] else []) ++
    (if enabledB then [reviewClaims "Reviewer_B" claims inputB] else [])
  if verdicts = [] then .error "All reviewers failed" else .ok verdicts

/-- The error taxonomy of `utils/error_handler.py`: `ModelTimeoutError`,
`ModelAPIError` and `ValidationError` subclass `PipelineError`;
`pipelineError` is an instance of the base class only. -/
inductive ErrorKind
  | modelTimeout (msg : String)
  | modelAPI (msg : String)
  | validation (msg : String)
  | valueError (msg : String)
  | pipelineError (msg : String)
  | other (msg : String)
deriving DecidableEq, Repr

/-- The `isinstance` chain of `handle_pipeline_error`
(`error_handler.py` lines 43-57): a plain `PipelineError` matches none
of the subclasses and falls through to the 500 branch. -/
def statusCode : ErrorKind → Nat
  | .modelTimeout _ => 504
  | .modelAPI _ => 502
  | .validation _ => 422
  | .valueError _ => 400
  | .pipelineError _ => 500
  | .other _ => 500

/-- The final-answer dict produced by the synthesis stage
(`chairman.py` lines 90-98 and 151-159, `orchestrator.py` lines
402-410). -/
structure FinalAnswer where
  final_answer : String
  supporting_claims : List String
  uncertain_points : List String
  rejected_claims : List String
  citations : List String
  confidence : ℚ
  reasoning_summary : String
deriving DecidableEq, Repr

/-- `ChairmanService._fallback_synthesis` (`chairman.py` lines
133-159): the answer is prefixed with `"Based on verified claims: "`
when supported claims exist. -/
def fallbackSynthesis (agg : Aggregation) : FinalAnswer :=
  { final_answer :=
      if agg.supported_claims ≠ [] then
        "Based on verified claims: " ++ pyJoinSpace (agg.supported_claims.take 3)
      else
        "Unable to provide a confident answer due to insufficient verified claims."
    supporting_claims := agg.supported_claims.take 5
    uncertain_points := agg.uncertain_claims.take 3
    rejected_claims := agg.rejected_claims.take 3
    citations := []
    confidence := 1/2
    reasoning_summary := "Fallback synthesis due to chairman error." }

/-- `PipelineOrchestrator._fallback_chairman` (`orchestrator.py` lines
398-410), used when the chairman stage is disabled: the answer is the
bare space-joined first three supported claims. -/
def fallbackChairmanOrch (agg : Aggregation) : FinalAnswer :=
  { final_answer :=
      if agg.supported_claims ≠ [] then pyJoinSpace (agg.supported_claims.take 3)
      else "Unable to synthesize answer."
    supporting_claims := agg.supported_claims.take 5
    uncertain_points := agg.uncertain_claims.take 3
    rejected_claims := agg.rejected_claims.take 3
    citations := []
    confidence := 1/2
    reasoning_summary := "Fallback synthesis (Chairman unavailable)" }

/-- The parsed chairman JSON object (`chairman.py` lines 64-98), fields
optional; `confidence` is assumed float-parseable here (an unparseable
one would, like every other exception, route to the fallback). -/
structure ParsedChairman where
  final_answer : Option String
  supporting_claims : Option (List String)
  uncertain_points : Option (List String)
  rejected_claims : Option (List String)
  citations : Option (List String)
  confidence : Option ℚ
  reasoning_summary : Option String
deriving DecidableEq, Repr

/-- `ChairmanService.synthesize` (`chairman.py` lines 20-107): the
backend/parse outcome is external (`.error ()` = backend error or
unrecoverable JSON); a parsed object missing `final_answer` raises
`ValidationError`, which the function's own handler turns into the
fallback; otherwise fields are defaulted and truncated. -/
def chairmanSynthesize (agg : Aggregation)
    (input : Except Unit ParsedChairman) : FinalAnswer :=
  match input with
  | .error _ => fallbackSynthesis agg
  | .ok p =>
    match p.final_answer with
    | none => fallbackSynthesis agg
    | some fa =>
      { final_answer := fa
        supporting_claims := (p.supporting_claims.getD []).take 10
        uncertain_points := (p.uncertain_points.getD []).take 5
        rejected_claims := (p.rejected_claims.getD []).take 5
        citations := (p.citations.getD []).take 10
        confidence := p.confidence.getD (7/10)
        reasoning_summary :=
          p.reasoning_summary.getD
            "Synthesized based on supported claims and peer review." }

/-- `PipelineOrchestrator._run_chairman` (`orchestrator.py` lines
376-396): the orchestrator fallback when the chairman is disabled,
otherwise the chairman service. -/
def runChairman (enableChairman : Bool) (agg : Aggregation)
    (input : Except Unit ParsedChairman) : FinalAnswer :=
  if ¬enableChairman then fallbackChairmanOrch agg
  else chairmanSynthesize agg input

/-- `[s.strip() for s in answer_text.split('.') if s.strip()]`
(`paraphrase.py` line 106): trimmed non-empty segments. -/
def pySentences (answer_text : String) : List String :=
  ((pySplitOnDot answer_text).map pyStrip).filter (· ≠ "")

/-- `enumerate(sentences[:5])` body of `paraphrase.py` lines 109-117:
the index counts positions in the truncated list, including segments
that fail the length check. -/
def fbLoop (name answer_text : String) (idx : Nat) :
    List String → List ParaClaim
  | [] => []
  | s :: rest =>
    (if s.length > 10 then
      [⟨pyLower name ++ "_claim_" ++ toString idx, name, answer_text,
        s ++ ".", pyWordCount s⟩]
     else []) ++ fbLoop name answer_text (idx + 1) rest

/-- `ParaphraseService._fallback_extraction` (`paraphrase.py` lines
101-119). -/
def fallbackExtraction (name answer_text : String) : List ParaClaim :=
  fbLoop name answer_text 0 ((pySentences answer_text).take 5)

/-- A Stage-1 opinion dict (`orchestrator.py` lines 278-295).
Citations are kept as opaque strings; `parse_error` models
`metadata = {"parse_error": True}` versus the empty metadata dict. -/
structure Stage1Opinion where
  model_name : String
  answer_text : String
  claims : List String
  citations : List String
  parse_error : Bool
deriving DecidableEq, Repr

/-- The successfully `json.loads`-ed Stage-1 object
(`orchestrator.py` lines 278-284), fields optional. -/
structure ParsedStage1 where
  answer_text : Option String
  claims : Option (List String)
  citations : Option (List String)
deriving DecidableEq, Repr

/-- `PipelineOrchestrator._parse_stage1_response` (`orchestrator.py`
lines 263-295).  The brace search plus `json.loads` is external and
appears as `jsonResult` (`none` = `ValueError`/`JSONDecodeError`).  The
function is total: the `except` arm builds the degraded opinion from
the response, which at that point has already been re-bound to its
stripped form (line 267), truncated to 500 characters. -/
def parseStage1Response (response : String)
    (jsonResult : Option ParsedStage1) (modelName : String) :
    Stage1Opinion :=
  let stripped := pyStrip response
  match jsonResult with
  | some p =>
    { model_name := modelName
      answer_text := p.answer_text.getD ""
      claims := p.claims.getD []
      citations := p.citations.getD []
      parse_error := false }
  | none =>
    { model_name := modelName
      answer_text := pyTake stripped 500
      claims := []
      citations := []
      parse_error := true }

/-- The statistics dict of `PipelineOrchestrator.__init__`
(`orchestrator.py` lines 49-55). -/
structure Stats where
  total_queries : Nat
  successful_queries : Nat
  failed_queries : Nat
  cache_hits : Nat
  total_processing_time : ℚ
deriving DecidableEq, Repr

/-- A cached pipeline result, reduced to an opaque payload plus the
`metadata.cache_hit` flag the claims are about. -/
structure PResult where
  payload : String
  cache_hit : Bool
deriving DecidableEq, Repr

/-- `ResponseCache.get` (`cache.py` lines 45-68) for one
`(query, options)` key: `None` when the cache is disabled, the stored
value unchanged otherwise. -/
def cacheGet (enabled : Bool) (store : Option PResult) : Option PResult :=
  if enabled then store else none

/-- `ResponseCache.set` (`cache.py` lines 70-93) for one key: a no-op
when disabled; otherwise the response is stored with
`metadata['cache_hit']` stamped `False` (the `cached_at` stamp is not
modelled). -/
def cacheSet (enabled : Bool) (store : Option PResult) (response : PResult) :
    Option PResult :=
  if enabled then some { response with cache_hit := false } else store

/-- `PipelineOrchestrator.run_pipeline` (`orchestrator.py` lines
65-174), reduced to its statistics and cache behaviour for one
`(query, options)` key.  `body` abstracts the five stages: on success a
payload and a processing time, on failure the exception that the
handler re-raises as `PipelineError`.  Returns the new statistics, the
new cache content, and the result. -/
def runPipeline (stats : Stats) (cacheEnabled : Bool)
    (store : Option PResult) (useCache : Bool)
    (body : Except Unit (String × ℚ)) :
    Stats × Option PResult × Except Unit PResult :=
  let stats := { stats with total_queries := stats.total_queries + 1 }
  match (if useCache then cacheGet cacheEnabled store else none) with
  | some cached =>
    ({ stats with cache_hits := stats.cache_hits + 1 }, store, .ok cached)
  | none =>
    match body with
    | .ok (payload, t) =>
      let result : PResult := { payload := payload, cache_hit := false }
      let store' := if useCache then cacheSet cacheEnabled store result else store
      ({ stats with
          successful_queries := stats.successful_queries + 1
          total_processing_time := stats.total_processing_time + t },
       store', .ok result)
    | .error _ =>
      ({ stats with failed_queries := stats.failed_queries + 1 },
       store, .error ())

/-! ### Specification-side definitions

The following definitions transcribe the spec's words (not the code) and
are compared against the embedded code. -/

/-- The bucket rules exactly as the claim states them: supported when
every review is CORRECT, rejected when every review is INCORRECT,
uncertain when every review is UNCERTAIN, then the strict-majority
comparisons, else disputed. -/
def specCategorize (reviews : List Review) : Bucket :=
  if reviews.all (fun r => r.verdict = "CORRECT") then .supported
  else if reviews.all (fun r => r.verdict = "INCORRECT") then .rejected
  else if reviews.all (fun r => r.verdict = "UNCERTAIN") then .uncertain
  else if countVerdict reviews "CORRECT" > countVerdict reviews "INCORRECT" ∧
          countVerdict reviews "CORRECT" > countVerdict reviews "UNCERTAIN" then .supported
  else if countVerdict reviews "INCORRECT" > countVerdict reviews "CORRECT" ∧
          countVerdict reviews "INCORRECT" > countVerdict reviews "UNCERTAIN" then .rejected
  else .disputed

/-- Spec-side bucket contents: canonical texts of the reviewed claim
ids present in the claims list whose verdict counts select `b`, in
first-appearance order. -/
def specBucketList (claims : List ParaClaim) (verdicts : List ReviewerVerdict)
    (b : Bucket) : List String :=
  (reviewsByClaim verdicts).filterMap (fun p =>
    match lookupClaim claims p.1 with
    | none => none
    | some c => if specCategorize p.2 = b then some c.canonical_text else none)

/-- The consensus score exactly as the claim states it: reviews whose
`claim_id` is not in the paraphrased claim list are ignored, the score
is 0.5 when some claim is reviewed but none has two reviewers, and 0.0
when there are no reviewed claims at all. -/
def specConsensus (claims : List ParaClaim) (verdicts : List ReviewerVerdict) : ℚ :=
  let rbc := (((verdicts.map (·.reviews)).flatten).filter
      (fun r => (lookupClaim claims r.claim_id).isSome)).foldl insertReview []
  if rbc = [] then 0
  else
    let multi := rbc.filter (fun p => 2 ≤ p.2.length)
    if multi = [] then 1/2
    else round3
      (((multi.filter (fun p => unanimousB (p.2.map (·.verdict)))).length : ℚ) /
       (multi.length : ℚ))

/-- The consensus score the code actually computes, in closed form:
all reviewed claim ids count (known or not), the score is 0 when there
are no reviews at all or the claims list is empty, 0.5 when no reviewed
claim id has two reviews, else the unanimous fraction rounded to three
decimals. -/
def consensusSpecAmended (claims : List ParaClaim)
    (verdicts : List ReviewerVerdict) : ℚ :=
  let rbc := reviewsByClaim verdicts
  let multi := rbc.filter (fun p => 2 ≤ p.2.length)
  if rbc = [] ∨ claims = [] then 0
  else if multi = [] then 1/2
  else round3
    (((multi.filter (fun p => unanimousB (p.2.map (·.verdict)))).length : ℚ) /
     (multi.length : ℚ))

/-- The sentence-split fallback exactly as the claim states it: keep
the first 5 trimmed segments whose length exceeds 10 characters, with
consecutive 0-based indices in the claim ids. -/
def specFallbackExtraction (name answer_text : String) : List ParaClaim :=
  let kept := (((pySplitOnDot answer_text).map pyStrip).filter
      (fun s => 10 < s.length)).take 5
  kept.enum.map (fun p =>
    ⟨pyLower name ++ "_claim_" ++ toString p.1, name, answer_text,
     p.2 ++ ".", pyWordCount p.2⟩)

/-! ### Aggregation characterization lemmas -/

/-- The contribution of one `reviews_by_claim` entry to bucket `b`. -/
def bucketEntry (claims : List ParaClaim) (b : Bucket)
    (p : String × List Review) : Option String :=
  match lookupClaim claims p.1 with
  | none => none
  | some c => if categorize p.2 = b then some c.canonical_text else none

instance instDecEqExcept {ε α : Type} [DecidableEq ε] [DecidableEq α] :
    DecidableEq (Except ε α) := fun a b =>
  match a, b with
  | .error e1, .error e2 =>
    if h : e1 = e2 then isTrue (by rw [h])
    else isFalse (by intro hh; cases hh; exact h rfl)
  | .ok a1, .ok a2 =>
    if h : a1 = a2 then isTrue (by rw [h])
    else isFalse (by intro hh; cases hh; exact h rfl)
  | .error _, .ok _ => isFalse (by intro hh; cases hh)
  | .ok _, .error _ => isFalse (by intro hh; cases hh)

/-- Specification-side description of review-item validation: the item
is kept exactly when `claim_id`, `reason` and a case-insensitively
valid string verdict are present, with upper-cased verdict, defaulted
`evidence_needed`, and confidence defaulting to 0.5 only when the field
is absent. -/
def keepItem (r : RawReview) : Option Review :=
  match r.claim_id, r.verdict, r.reason with
  | some cid, some (.vstr v), some reason =>
    if pyUpper v = "CORRECT" ∨ pyUpper v = "INCORRECT" ∨
       pyUpper v = "UNCERTAIN" then
      some ⟨cid, pyUpper v, reason, r.evidence_needed.getD false,
            match r.confidence with
            | .parseable q => q
            | _ => 1/2⟩
    else none
  | _, _, _ => none

/-- A raw item that does not abort the reviewer's formatting loop: its
verdict field, when all three required fields are present, is a string,
and its confidence is float-parseable whenever the item is kept. -/
def itemSafe (r : RawReview) : Prop :=
  validateReview r ≠ .error () ∧
  (validateReview r = .ok true → r.confidence ≠ .unparseable)

instance (r : RawReview) : Decidable (itemSafe r) := by
  unfold itemSafe
  infer_instance

lemma aggStep_bucket (claims : List ParaClaim) (acc : AggLists)
    (p : String × List Review) (b : Bucket) :
    (aggStep claims acc p).bucket b =
      acc.bucket b ++ (bucketEntry claims b p).toList := by
  unfold aggStep bucketEntry
  cases h : lookupClaim claims p.1 with
  | none => simp
  | some c =>
    by_cases hev : p.2.any (fun r => r.evidence_needed) <;>
      cases hcat : categorize p.2 <;> cases b <;>
      simp [AggLists.bucket, hev, hcat]

lemma foldl_aggStep_bucket (claims : List ParaClaim) (b : Bucket) :
    ∀ (rbc : List (String × List Review)) (acc : AggLists),
      ((rbc.foldl (aggStep claims) acc).bucket b) =
        acc.bucket b ++ rbc.filterMap (bucketEntry claims b) := by
  intro rbc
  induction rbc with
  | nil => intro acc; simp
  | cons p rest ih =>
    intro acc
    rw [List.foldl_cons, ih, aggStep_bucket]
    cases hf : bucketEntry claims b p <;>
      simp [List.filterMap_cons, hf]

lemma aggregate_bucket (claims : List ParaClaim)
    (verdicts : List ReviewerVerdict) (b : Bucket) :
    (aggregate claims verdicts).bucket b =
      (reviewsByClaim verdicts).filterMap (bucketEntry claims b) := by
  have h := foldl_aggStep_bucket claims b (reviewsByClaim verdicts) ⟨[], [], [], [], 0⟩
  cases b <;>
    simpa [aggregate, Aggregation.bucket, AggLists.bucket] using h

lemma countVerdict_eq_length_iff (l : List Review) (v : String) :
    countVerdict l v = l.length ↔ l.all (fun r => r.verdict = v) := by
  induction l with
  | nil => simp [countVerdict]
  | cons r rest ih =>
    by_cases h : r.verdict = v
    · simp [countVerdict, List.filter_cons, h] at *
    · simp only [countVerdict, List.filter_cons] at *
      rw [if_neg (by simpa using h)]
      constructor
      · intro hc
        exfalso
        have hle : (rest.filter (fun x => decide (x.verdict = v))).length ≤ rest.length :=
          List.length_filter_le _ _
        simp only [List.length_cons] at hc
        omega
      · intro hc
        simp only [List.all_cons, Bool.and_eq_true, decide_eq_true_eq] at hc
        exact absurd hc.1 h

lemma categorize_eq_specCategorize (reviews : List Review) :
    categorize reviews = specCategorize reviews := by
  have h1 := countVerdict_eq_length_iff reviews "CORRECT"
  have h2 := countVerdict_eq_length_iff reviews "INCORRECT"
  have h3 := countVerdict_eq_length_iff reviews "UNCERTAIN"
  unfold categorize specCategorize
  simp only [h1, h2, h3]

lemma bucketEntry_eq_spec (claims : List ParaClaim) (b : Bucket)
    (p : String × List Review) :
    bucketEntry claims b p =
      (match lookupClaim claims p.1 with
       | none => none
       | some c => if specCategorize p.2 = b then some c.canonical_text else none) := by
  unfold bucketEntry
  rw [categorize_eq_specCategorize]

/-- Keys of `insertReview`. -/
lemma insertReview_keys (acc : List (String × List Review)) (r : Review) :
    (insertReview acc r).map Prod.fst =
      if acc.any (fun p => p.1 = r.claim_id) then acc.map Prod.fst
      else acc.map Prod.fst ++ [r.claim_id] := by
  unfold insertReview
  by_cases h : acc.any (fun p => p.1 = r.claim_id)
  · simp only [h, if_true, List.map_map]
    congr 1
    funext p
    by_cases hp : p.1 = r.claim_id <;> simp [hp]
  · simp [h]

lemma insertReview_keys_nodup (acc : List (String × List Review)) (r : Review)
    (h : (acc.map Prod.fst).Nodup) :
    ((insertReview acc r).map Prod.fst).Nodup := by
  rw [insertReview_keys]
  by_cases hm : acc.any (fun p => p.1 = r.claim_id)
  · rwa [if_pos hm]
  · rw [if_neg hm, List.nodup_append]
    refine ⟨h, List.nodup_singleton _, ?_⟩
    intro x hx hx1
    simp only [List.mem_singleton] at hx1
    subst hx1
    rcases List.mem_map.mp hx with ⟨⟨a, b⟩, hp, hfst⟩
    simp only at hfst
    subst hfst
    exact (by simpa using hm : ∀ (y : List Review), (r.claim_id, y) ∉ acc) b hp

lemma foldl_insertReview_keys_nodup :
    ∀ (l : List Review) (acc : List (String × List Review)),
      (acc.map Prod.fst).Nodup → ((l.foldl insertReview acc).map Prod.fst).Nodup := by
  intro l
  induction l with
  | nil => intro acc h; simpa using h
  | cons r rest ih =>
    intro acc h
    exact ih (insertReview acc r) (insertReview_keys_nodup acc r h)

lemma reviewsByClaim_keys_nodup (verdicts : List ReviewerVerdict) :
    ((reviewsByClaim verdicts).map Prod.fst).Nodup :=
  foldl_insertReview_keys_nodup _ [] (by simp)

lemma lookupClaim_claim_id (claims : List ParaClaim) (cid : String)
    (c : ParaClaim) (h : lookupClaim claims cid = some c) :
    c.claim_id = cid := by
  have := List.find?_some h
  simpa using this

lemma lookupClaim_mem (claims : List ParaClaim) (cid : String)
    (c : ParaClaim) (h : lookupClaim claims cid = some c) : c ∈ claims := by
  have := List.mem_of_find?_eq_some h
  exact List.mem_reverse.mp this

lemma mem_aggregate_bucket {claims : List ParaClaim}
    {verdicts : List ReviewerVerdict} {b : Bucket} {x : String} :
    x ∈ (aggregate claims verdicts).bucket b ↔
      ∃ p ∈ reviewsByClaim verdicts, ∃ c,
        lookupClaim claims p.1 = some c ∧ categorize p.2 = b ∧
        c.canonical_text = x := by
  rw [aggregate_bucket, List.mem_filterMap]
  constructor
  · rintro ⟨p, hp, he⟩
    unfold bucketEntry at he
    cases hl : lookupClaim claims p.1 with
    | none => rw [hl] at he; cases he
    | some c =>
      rw [hl] at he
      dsimp only at he
      by_cases hb : categorize p.2 = b
      · rw [if_pos hb] at he
        exact ⟨p, hp, c, hl, hb, Option.some_inj.mp he⟩
      · rw [if_neg hb] at he; cases he
  · rintro ⟨p, hp, c, hl, hb, hx⟩
    refine ⟨p, hp, ?_⟩
    unfold bucketEntry
    rw [hl]
    dsimp only
    rw [if_pos hb, hx]

/-- **C1.** Each claim referenced by at least one review whose id
appears in the claims list has its canonical text placed in exactly the
bucket selected by its verdict counts — supported when every review is
CORRECT, rejected when every review is INCORRECT, uncertain when every
review is UNCERTAIN, the strict-majority buckets otherwise, disputed in
the remaining cases: every bucket of `aggregate` equals the
specification-side `specBucketList`, which enumerates reviewed known
claim ids in first-appearance order and emits each text exactly when
those rules select the bucket. -/
theorem aggregate_bucket_rules (claims : List ParaClaim)
    (verdicts : List ReviewerVerdict) (b : Bucket) :
    (aggregate claims verdicts).bucket b = specBucketList claims verdicts b := by
  rw [aggregate_bucket]
  unfold specBucketList
  congr 1
  funext p
  rw [bucketEntry_eq_spec]

/-- **C3 counterexample.** Bucket disjointness fails on the code as the
claim states it: two distinct claim ids carrying the same canonical
text `"X."`, one judged CORRECT and the other INCORRECT by the single
reviewer, put `"X."` into both the supported and rejected buckets. -/
theorem bucket_disjointness_counterexample :
    "X." ∈ (aggregate
        [⟨"c1", "M", "o", "X.", 1⟩, ⟨"c2", "M", "o", "X.", 1⟩]
        [⟨"R1", [⟨"c1", "CORRECT", "ok", false, 9/10⟩,
                 ⟨"c2", "INCORRECT", "no", false, 9/10⟩], false⟩]).supported_claims
  ∧ "X." ∈ (aggregate
        [⟨"c1", "M", "o", "X.", 1⟩, ⟨"c2", "M", "o", "X.", 1⟩]
        [⟨"R1", [⟨"c1", "CORRECT", "ok", false, 9/10⟩,
                 ⟨"c2", "INCORRECT", "no", false, 9/10⟩], false⟩]).rejected_claims := by
  constructor <;> decide

/-- **C3 amended.** Provided distinct claim ids carry distinct
canonical texts, the four buckets are pairwise disjoint and every claim
reviewed by at least one reviewer whose id appears in the claims list
appears in exactly one bucket. -/
theorem aggregate_buckets_partition (claims : List ParaClaim)
    (verdicts : List ReviewerVerdict)
    (hinj : ∀ c1 ∈ claims, ∀ c2 ∈ claims,
        c1.canonical_text = c2.canonical_text → c1.claim_id = c2.claim_id) :
    (∀ b b' : Bucket, b ≠ b' →
       ∀ x ∈ (aggregate claims verdicts).bucket b,
         x ∉ (aggregate claims verdicts).bucket b')
  ∧ (∀ p ∈ reviewsByClaim verdicts, ∀ c ∈ lookupClaim claims p.1,
       c.canonical_text ∈ (aggregate claims verdicts).bucket (categorize p.2)
       ∧ ∀ b : Bucket,
           c.canonical_text ∈ (aggregate claims verdicts).bucket b →
           b = categorize p.2) := by
  have key : ∀ (b b' : Bucket) (x : String),
      x ∈ (aggregate claims verdicts).bucket b →
      x ∈ (aggregate claims verdicts).bucket b' → b = b' := by
    intro b b' x hb hb'
    rcases mem_aggregate_bucket.mp hb with ⟨p, hp, c, hl, hcat, hx⟩
    rcases mem_aggregate_bucket.mp hb' with ⟨q, hq, c', hl', hcat', hx'⟩
    have htext : c.canonical_text = c'.canonical_text := by rw [hx, hx']
    have hid : c.claim_id = c'.claim_id :=
      hinj c (lookupClaim_mem _ _ _ hl) c' (lookupClaim_mem _ _ _ hl') htext
    have hkey : p.1 = q.1 := by
      rw [← lookupClaim_claim_id _ _ _ hl, ← lookupClaim_claim_id _ _ _ hl', hid]
    have hpq : p = q :=
      List.inj_on_of_nodup_map (reviewsByClaim_keys_nodup verdicts) hp hq hkey
    rw [← hcat, ← hcat', hpq]
  constructor
  · intro b b' hbb x hxb hxb'
    exact hbb (key b b' x hxb hxb')
  · intro p hp c hc
    have hl : lookupClaim claims p.1 = some c := Option.mem_def.mp hc
    have hmem : c.canonical_text ∈
        (aggregate claims verdicts).bucket (categorize p.2) :=
      mem_aggregate_bucket.mpr ⟨p, hp, c, hl, rfl, rfl⟩
    exact ⟨hmem, fun b hb => key b (categorize p.2) _ hb hmem⟩

lemma consensusCounts_foldl :
    ∀ (rbc : List (String × List Review)) (a t : Nat),
      rbc.foldl
        (fun (at_ : Nat × Nat) p =>
          if p.2.length < 2 then at_
          else
            ((if unanimousB (p.2.map (·.verdict)) then at_.1 + 1 else at_.1),
             at_.2 + 1))
        (a, t)
      = (a + ((rbc.filter (fun p => 2 ≤ p.2.length)).filter
            (fun p => unanimousB (p.2.map (·.verdict)))).length,
         t + (rbc.filter (fun p => 2 ≤ p.2.length)).length) := by
  intro rbc
  induction rbc with
  | nil => simp
  | cons p rest ih =>
    intro a t
    rw [List.foldl_cons]
    by_cases h2 : p.2.length < 2
    · rw [if_pos h2, ih]
      have hn : ¬ (2 ≤ p.2.length) := by omega
      simp [List.filter_cons, hn]
    · rw [if_neg h2, ih]
      have h2' : 2 ≤ p.2.length := by omega
      by_cases hu : unanimousB (p.2.map (·.verdict))
      · simp [List.filter_cons, h2', hu, Prod.mk.injEq]
        omega
      · simp [List.filter_cons, h2', hu, Prod.mk.injEq]
        omega

/-- **C2 counterexample.** The code does not ignore reviews whose
`claim_id` is missing from the paraphrased claim list when computing
the consensus score: with one known claim `"c1"` and a single review
referencing only the unknown id `"bogus"`, the claim's reading gives
score 0.0 (no reviewed claims remain once unknown ids are ignored),
but the code counts the unknown id as a reviewed claim with fewer than
two reviewers and returns the neutral 0.5. -/
theorem consensus_ignores_unknown_ids_counterexample :
    specConsensus
        [⟨"c1", "M", "o", "X.", 1⟩]
        [⟨"R1", [⟨"bogus", "CORRECT", "ok", false, 9/10⟩], false⟩] = 0
  ∧ (aggregate
        [⟨"c1", "M", "o", "X.", 1⟩]
        [⟨"R1", [⟨"bogus", "CORRECT", "ok", false, 9/10⟩], false⟩]).consensus_score
      = 1/2
  ∧ (0 : ℚ) ≠ 1/2 := by
  refine ⟨rfl, rfl, by norm_num⟩

/-- **C2 amended.** The consensus score counts every reviewed claim id,
including those whose `claim_id` does not appear in the paraphrased
claim list; it is 0 when there are no reviews at all or the claims list
is empty, 0.5 when there are reviews and claims but no claim id has at
least two reviews, and otherwise the fraction of multi-reviewed claim
ids whose verdicts are unanimous, rounded to three decimals. -/
theorem consensus_score_closed_form (claims : List ParaClaim)
    (verdicts : List ReviewerVerdict) :
    (aggregate claims verdicts).consensus_score =
      consensusSpecAmended claims verdicts := by
  show consensusScore (reviewsByClaim verdicts) claims.length = _
  unfold consensusScore consensusSpecAmended
  simp only [consensusCounts_foldl, Nat.zero_add, List.length_eq_zero]

/-- **C3 amended, witness.** The partition theorem applied to a
concrete two-claim input with distinct canonical texts. -/
theorem aggregate_buckets_partition_witness :
    (∀ c1 ∈ [(⟨"c1", "M", "o", "A.", 1⟩ : ParaClaim), ⟨"c2", "M", "o", "B.", 1⟩],
       ∀ c2 ∈ [(⟨"c1", "M", "o", "A.", 1⟩ : ParaClaim), ⟨"c2", "M", "o", "B.", 1⟩],
         c1.canonical_text = c2.canonical_text → c1.claim_id = c2.claim_id)
  ∧ ((∀ b b' : Bucket, b ≠ b' →
       ∀ x ∈ (aggregate
          [⟨"c1", "M", "o", "A.", 1⟩, ⟨"c2", "M", "o", "B.", 1⟩]
          [⟨"R1", [⟨"c1", "CORRECT", "ok", false, 9/10⟩,
                   ⟨"c2", "UNCERTAIN", "hm", true, 1/2⟩], false⟩]).bucket b,
         x ∉ (aggregate
          [⟨"c1", "M", "o", "A.", 1⟩, ⟨"c2", "M", "o", "B.", 1⟩]
          [⟨"R1", [⟨"c1", "CORRECT", "ok", false, 9/10⟩,
                   ⟨"c2", "UNCERTAIN", "hm", true, 1/2⟩], false⟩]).bucket b')
     ∧ (∀ p ∈ reviewsByClaim
          [⟨"R1", [⟨"c1", "CORRECT", "ok", false, 9/10⟩,
                   ⟨"c2", "UNCERTAIN", "hm", true, 1/2⟩], false⟩],
        ∀ c ∈ lookupClaim
          [⟨"c1", "M", "o", "A.", 1⟩, ⟨"c2", "M", "o", "B.", 1⟩] p.1,
         c.canonical_text ∈ (aggregate
          [⟨"c1", "M", "o", "A.", 1⟩, ⟨"c2", "M", "o", "B.", 1⟩]
          [⟨"R1", [⟨"c1", "CORRECT", "ok", false, 9/10⟩,
                   ⟨"c2", "UNCERTAIN", "hm", true, 1/2⟩], false⟩]).bucket (categorize p.2)
         ∧ ∀ b : Bucket,
             c.canonical_text ∈ (aggregate
              [⟨"c1", "M", "o", "A.", 1⟩, ⟨"c2", "M", "o", "B.", 1⟩]
              [⟨"R1", [⟨"c1", "CORRECT", "ok", false, 9/10⟩,
                       ⟨"c2", "UNCERTAIN", "hm", true, 1/2⟩], false⟩]).bucket b →
             b = categorize p.2)) :=
  ⟨by decide, aggregate_buckets_partition _ _ (by decide)⟩

/-- **C5 counterexample.** With both reviewers enabled and both
backends failing, each `review_claims` call swallows the error and
returns the UNCERTAIN fallback verdict, so the review stage succeeds
instead of raising `PipelineError`; the same holds when the claim list
is empty and every reviewer therefore produces zero reviews; and a
plain `PipelineError` is classified to HTTP 500, not 502. -/
theorem all_reviewers_fail_counterexample :
    runReview true true [⟨"m_claim_0", "M", "o", "some text", 2⟩]
        .backendError .backendError
      = .ok [⟨"Reviewer_A",
               [⟨"m_claim_0", "UNCERTAIN",
                 "Unable to verify due to reviewer error", true, 3/10⟩], true⟩,
             ⟨"Reviewer_B",
               [⟨"m_claim_0", "UNCERTAIN",
                 "Unable to verify due to reviewer error", true, 3/10⟩], true⟩]
  ∧ runReview true true [] .backendError .backendError
      = .ok [⟨"Reviewer_A", [], true⟩, ⟨"Reviewer_B", [], true⟩]
  ∧ statusCode (.pipelineError "All reviewers failed") = 500 :=
  ⟨rfl, rfl, rfl⟩

/-- **C5 amended.** When reviewer backends fail, every enabled reviewer
returns the fallback verdict of one UNCERTAIN review per claim
(confidence 0.3, evidence needed) and the review stage succeeds;
`PipelineError("All reviewers failed")` is raised exactly when no
reviewer is enabled; and the error classifier maps a plain
`PipelineError` to HTTP 500. -/
theorem runReview_failure_semantics (eA eB : Bool)
    (claims : List ParaClaim) (iA iB : ReviewerInput) :
    ((runReview eA eB claims iA iB = .error "All reviewers failed") ↔
      (eA = false ∧ eB = false))
  ∧ runReview true true claims .backendError .backendError
      = .ok [⟨"Reviewer_A", claims.map (fun c =>
                ⟨c.claim_id, "UNCERTAIN",
                 "Unable to verify due to reviewer error", true, 3/10⟩), true⟩,
             ⟨"Reviewer_B", claims.map (fun c =>
                ⟨c.claim_id, "UNCERTAIN",
                 "Unable to verify due to reviewer error", true, 3/10⟩), true⟩]
  ∧ statusCode (.pipelineError "All reviewers failed") = 500 := by
  refine ⟨?_, rfl, rfl⟩
  cases eA <;> cases eB <;> simp [runReview]

/-- **C6 counterexample.** An item that carries `claim_id`, `reason`
and the valid verdict `CORRECT` but an unparseable `confidence` is not
kept with confidence 0.5: the `float()` call raises, the formatting
loop aborts, and the whole reviewer degrades to the UNCERTAIN fallback
reviews. -/
theorem confidence_default_counterexample :
    formatReviews
        [⟨some "c1", some (.vstr "CORRECT"), some "because", none, .unparseable⟩]
      = .error ()
  ∧ reviewClaims "Reviewer_A" [⟨"c1", "M", "o", "text", 1⟩]
        (.parsed [⟨some "c1", some (.vstr "CORRECT"), some "because", none,
                   .unparseable⟩])
      = ⟨"Reviewer_A",
         [⟨"c1", "UNCERTAIN", "Unable to verify due to reviewer error",
           true, 3/10⟩], true⟩
  ∧ (⟨"c1", "CORRECT", "because", false, 1/2⟩ : Review) ∉
      (reviewClaims "Reviewer_A" [⟨"c1", "M", "o", "text", 1⟩]
        (.parsed [⟨some "c1", some (.vstr "CORRECT"), some "because", none,
                   .unparseable⟩])).reviews := by
  refine ⟨rfl, rfl, by decide⟩

lemma formatReviews_safe :
    ∀ (items : List RawReview), (∀ r ∈ items, itemSafe r) →
      formatReviews items = .ok (items.filterMap keepItem) := by
  intro items
  induction items with
  | nil => intro _; rfl
  | cons r rest ih =>
    intro hsafe
    obtain ⟨hne, hconf⟩ := hsafe r (List.mem_cons_self _ _)
    have hrest := ih (fun x hx => hsafe x (List.mem_cons_of_mem _ hx))
    obtain ⟨cid, v, reason, ev, cf⟩ := r
    cases cid with
    | none => simp [formatReviews, validateReview, keepItem, hrest]
    | some cid =>
      cases v with
      | none => simp [formatReviews, validateReview, keepItem, hrest]
      | some vv =>
        cases reason with
        | none =>
          cases vv with
          | vstr s => simp [formatReviews, validateReview, keepItem, hrest]
          | vother => simp [formatReviews, validateReview, keepItem, hrest]
        | some reason =>
          cases vv with
          | vother => exact absurd rfl hne
          | vstr s =>
            by_cases hval : pyUpper s = "CORRECT" ∨ pyUpper s = "INCORRECT" ∨
                pyUpper s = "UNCERTAIN"
            · have hcf : cf ≠ .unparseable :=
                hconf (by simp [validateReview, hval])
              cases cf with
              | absent =>
                simp [formatReviews, validateReview, keepItem, hval, hrest]
              | parseable q =>
                simp [formatReviews, validateReview, keepItem, hval, hrest]
              | unparseable => exact absurd rfl hcf
            · simp [formatReviews, validateReview, keepItem, hval, hrest]

/-- **C6 amended.** A review item is kept iff it carries `claim_id`,
`reason`, and a case-insensitively valid verdict; kept items get an
upper-cased verdict, `evidence_needed` defaulting to false, and
confidence defaulting to 0.5 only when the field is absent — provided
no item aborts the loop (a present non-string verdict on an otherwise
complete item, or an unparseable confidence on a kept item, raises and
sends the entire reviewer to its UNCERTAIN fallback instead). -/
theorem review_item_validation (items : List RawReview)
    (hsafe : ∀ r ∈ items, itemSafe r) :
    formatReviews items = .ok (items.filterMap keepItem)
  ∧ ∀ (name : String) (claims : List ParaClaim),
      reviewClaims name claims (.parsed items) =
        ⟨name, items.filterMap keepItem, false⟩ := by
  have hfmt := formatReviews_safe items hsafe
  refine ⟨hfmt, fun name claims => ?_⟩
  simp [reviewClaims, hfmt]

/-- **C6 amended, witness.** The validation theorem applied to a
concrete item list containing a kept lower-case-verdict item, an item
discarded for a missing `claim_id`, and an item discarded for an
invalid verdict. -/
theorem review_item_validation_witness :
    (∀ r ∈ [(⟨some "c1", some (.vstr "correct"), some "ok", some true,
              .parseable (4/5)⟩ : RawReview),
            ⟨none, some (.vstr "CORRECT"), some "x", none, .absent⟩,
            ⟨some "c2", some (.vstr "MAYBE"), some "y", none, .absent⟩],
       itemSafe r)
  ∧ formatReviews
      [⟨some "c1", some (.vstr "correct"), some "ok", some true,
        .parseable (4/5)⟩,
       ⟨none, some (.vstr "CORRECT"), some "x", none, .absent⟩,
       ⟨some "c2", some (.vstr "MAYBE"), some "y", none, .absent⟩]
      = .ok ([(⟨some "c1", some (.vstr "correct"), some "ok", some true,
                .parseable (4/5)⟩ : RawReview),
              ⟨none, some (.vstr "CORRECT"), some "x", none, .absent⟩,
              ⟨some "c2", some (.vstr "MAYBE"), some "y", none,
               .absent⟩].filterMap keepItem)
  ∧ reviewClaims "Reviewer_A" []
      (.parsed [⟨some "c1", some (.vstr "correct"), some "ok", some true,
                 .parseable (4/5)⟩,
                ⟨none, some (.vstr "CORRECT"), some "x", none, .absent⟩,
                ⟨some "c2", some (.vstr "MAYBE"), some "y", none, .absent⟩])
      = ⟨"Reviewer_A",
         [(⟨some "c1", some (.vstr "correct"), some "ok", some true,
            .parseable (4/5)⟩ : RawReview),
          ⟨none, some (.vstr "CORRECT"), some "x", none, .absent⟩,
          ⟨some "c2", some (.vstr "MAYBE"), some "y", none,
           .absent⟩].filterMap keepItem, false⟩ :=
  ⟨by decide,
   (review_item_validation _ (by decide)).1,
   (review_item_validation _ (by decide)).2 "Reviewer_A" []⟩

/-- **C7 counterexample.** On a synthesis error (e.g. malformed chairman
JSON) with `supported = ["Paris is the capital of France."]`, the
fallback answer is prefixed with `"Based on verified claims: "` rather
than being exactly the supported claim; the bare space-join is produced
only by the orchestrator's disabled-chairman fallback. -/
theorem chairman_fallback_counterexample :
    (chairmanSynthesize
        ⟨1, ["Paris is the capital of France."], [], [], [], 1, 0⟩
        (.error ())).final_answer
      = "Based on verified claims: Paris is the capital of France."
  ∧ (chairmanSynthesize
        ⟨1, ["Paris is the capital of France."], [], [], [], 1, 0⟩
        (.error ())).confidence = 1/2
  ∧ "Based on verified claims: Paris is the capital of France."
      ≠ "Paris is the capital of France." := by
  refine ⟨by decide, rfl, by decide⟩

/-- **C7 amended.** With a non-empty supported bucket, the
disabled-chairman fallback returns the first three supported claims
joined by single spaces with confidence 0.5, while the error-path
fallback returns the same join prefixed by
`"Based on verified claims: "`, also with confidence 0.5. -/
theorem chairman_fallback_semantics (agg : Aggregation)
    (h : agg.supported_claims ≠ []) :
    (chairmanSynthesize agg (.error ())).final_answer
      = "Based on verified claims: " ++ pyJoinSpace (agg.supported_claims.take 3)
  ∧ (chairmanSynthesize agg (.error ())).confidence = 1/2
  ∧ (∀ input, runChairman false agg input = fallbackChairmanOrch agg)
  ∧ (fallbackChairmanOrch agg).final_answer
      = pyJoinSpace (agg.supported_claims.take 3)
  ∧ (fallbackChairmanOrch agg).confidence = 1/2 := by
  refine ⟨?_, rfl, fun input => rfl, ?_, rfl⟩
  · simp [chairmanSynthesize, fallbackSynthesis, h]
  · simp [fallbackChairmanOrch, h]

/-- **C7 amended, witness.** The fallback-semantics theorem applied to
a concrete aggregation with one supported claim. -/
theorem chairman_fallback_semantics_witness :
    ((⟨1, ["A."], [], [], [], 1, 0⟩ : Aggregation).supported_claims ≠ [])
  ∧ ((chairmanSynthesize ⟨1, ["A."], [], [], [], 1, 0⟩ (.error ())).final_answer
      = "Based on verified claims: "
        ++ pyJoinSpace ((⟨1, ["A."], [], [], [], 1, 0⟩ :
            Aggregation).supported_claims.take 3)
  ∧ (chairmanSynthesize ⟨1, ["A."], [], [], [], 1, 0⟩ (.error ())).confidence = 1/2
  ∧ (∀ input, runChairman false ⟨1, ["A."], [], [], [], 1, 0⟩ input
      = fallbackChairmanOrch ⟨1, ["A."], [], [], [], 1, 0⟩)
  ∧ (fallbackChairmanOrch ⟨1, ["A."], [], [], [], 1, 0⟩).final_answer
      = pyJoinSpace ((⟨1, ["A."], [], [], [], 1, 0⟩ :
          Aggregation).supported_claims.take 3)
  ∧ (fallbackChairmanOrch ⟨1, ["A."], [], [], [], 1, 0⟩).confidence = 1/2) :=
  ⟨by decide, chairman_fallback_semantics _ (by decide)⟩

lemma fbLoop_enumFrom (name text : String) :
    ∀ (l : List String) (idx : Nat),
      fbLoop name text idx l
        = (l.enumFrom idx).filterMap (fun p =>
            if 10 < p.2.length then
              some ⟨pyLower name ++ "_claim_" ++ toString p.1, name, text,
                    p.2 ++ ".", pyWordCount p.2⟩
            else none) := by
  intro l
  induction l with
  | nil => intro idx; rfl
  | cons s rest ih =>
    intro idx
    by_cases h : 10 < s.length <;>
      simp [fbLoop, List.enumFrom, List.filterMap_cons, h, ih]

lemma fbLoop_texts (name text : String) :
    ∀ (l : List String) (idx : Nat),
      (fbLoop name text idx l).map (·.canonical_text)
        = (l.filter (fun s => 10 < s.length)).map (· ++ ".") := by
  intro l
  induction l with
  | nil => intro idx; rfl
  | cons s rest ih =>
    intro idx
    by_cases h : 10 < s.length <;>
      simp [fbLoop, List.filter_cons, h, ih]

lemma fbLoop_length_le (name text : String) :
    ∀ (l : List String) (idx : Nat),
      (fbLoop name text idx l).length ≤ l.length := by
  intro l
  induction l with
  | nil => intro idx; simp [fbLoop]
  | cons s rest ih =>
    intro idx
    by_cases h : 10 < s.length
    · simp [fbLoop, h]
      exact ih _
    · simp [fbLoop, h]
      exact Nat.le_succ_of_le (ih _)

/-- **C8 counterexample.** The sentence-split fallback does not keep
the first five segments longer than ten characters: it truncates to the
first five non-empty segments *before* the length filter, and indexes
claims by position in that truncated list.  With a short second
segment, the code emits only four claims with the non-contiguous ids
`m_claim_0, m_claim_2, m_claim_3, m_claim_4`, while the claim's reading
emits five consecutively-indexed claims. -/
theorem fallback_extraction_counterexample :
    (fallbackExtraction "M"
        "aaaaaaaaaaaa.bb.cccccccccccc.dddddddddddd.eeeeeeeeeeee.ffffffffffff").map
        (·.claim_id)
      = ["m_claim_0", "m_claim_2", "m_claim_3", "m_claim_4"]
  ∧ (specFallbackExtraction "M"
        "aaaaaaaaaaaa.bb.cccccccccccc.dddddddddddd.eeeeeeeeeeee.ffffffffffff").map
        (·.claim_id)
      = ["m_claim_0", "m_claim_1", "m_claim_2", "m_claim_3", "m_claim_4"]
  ∧ fallbackExtraction "M"
        "aaaaaaaaaaaa.bb.cccccccccccc.dddddddddddd.eeeeeeeeeeee.ffffffffffff"
      ≠ specFallbackExtraction "M"
        "aaaaaaaaaaaa.bb.cccccccccccc.dddddddddddd.eeeeeeeeeeee.ffffffffffff" := by
  refine ⟨by decide, by decide, by decide⟩

/-- **C8 amended.** The fallback splits on `'.'`, trims, drops empty
segments, truncates to the first five remaining segments, and keeps
those whose length exceeds ten characters with a trailing `'.'`
appended; each claim id is `<lowercased model>_claim_<i>` where `i` is
the segment's position within the truncated five-element list (so at
most five claims, with possibly non-contiguous indices). -/
theorem fallback_extraction_semantics (name text : String) :
    fallbackExtraction name text
      = ((pySentences text).take 5).enum.filterMap (fun p =>
          if 10 < p.2.length then
            some ⟨pyLower name ++ "_claim_" ++ toString p.1, name, text,
                  p.2 ++ ".", pyWordCount p.2⟩
          else none)
  ∧ (fallbackExtraction name text).map (·.canonical_text)
      = (((pySentences text).take 5).filter
          (fun s => 10 < s.length)).map (· ++ ".")
  ∧ (fallbackExtraction name text).length ≤ 5 := by
  refine ⟨?_, ?_, ?_⟩
  · rw [fallbackExtraction, fbLoop_enumFrom]
    rfl
  · rw [fallbackExtraction, fbLoop_texts]
  · refine le_trans (fbLoop_length_le name text _ 0) ?_
    exact List.length_take_le 5 (pySentences text)

lemma pyTake_length_le (s : String) (n : Nat) : (pyTake s n).length ≤ n := by
  show (s.data.take n).length ≤ n
  exact List.length_take_le _ _

/-- **C9 counterexample.** On parse failure, the Stage-1 parser's
degraded `answer_text` is the *stripped* raw response truncated to 500
characters, not the raw response itself: for the unparseable response
`"  hi"`, the emitted `answer_text` is `"hi"`. -/
theorem stage1_strip_counterexample :
    parseStage1Response "  hi" none "M" = ⟨"M", "hi", [], [], true⟩
  ∧ pyTake "  hi" 500 = "  hi"
  ∧ ("hi" : String) ≠ "  hi" := by
  refine ⟨by decide, by decide, by decide⟩

/-- **C9 amended.** The Stage-1 parser is total: on parse failure it
returns an opinion whose `answer_text` is the whitespace-stripped raw
response truncated to 500 characters (hence at most 500 characters
long), with empty claims and citations and `parse_error = true`; on
parse success it returns the parsed fields (missing ones defaulted)
under the given model label with `parse_error = false`. -/
theorem stage1_parser_semantics (response modelName : String)
    (p : ParsedStage1) :
    parseStage1Response response none modelName
      = ⟨modelName, pyTake (pyStrip response) 500, [], [], true⟩
  ∧ (parseStage1Response response none modelName).answer_text.length ≤ 500
  ∧ parseStage1Response response (some p) modelName
      = ⟨modelName, p.answer_text.getD "", p.claims.getD [],
         p.citations.getD [], false⟩ :=
  ⟨rfl, pyTake_length_le _ _, rfl⟩

/-- **C4 counterexample.** On a cache hit the pipeline returns the
stored entry exactly as stored — and `ResponseCache.set` stamps
`metadata.cache_hit = False` at write time — so the returned response
carries `cache_hit = false`, not `true`, although the cache-hit
statistic is recorded. -/
theorem cache_hit_flag_counterexample :
    (runPipeline ⟨0, 0, 0, 0, 0⟩ true (some ⟨"p", false⟩) true
        (.ok ("x", 1))).2.2 = .ok ⟨"p", false⟩
  ∧ (⟨"p", false⟩ : PResult).cache_hit = false
  ∧ cacheSet true none ⟨"q", true⟩ = some ⟨"q", false⟩ :=
  ⟨rfl, rfl, rfl⟩

/-- **C4 amended.** With caching enabled and a fresh entry stored for
the query, the run operation returns the stored entry completely
unchanged — its `metadata.cache_hit` stays `false`, as stamped by
`ResponseCache.set` at write time — and records a cache-hit statistic
(and increments the total-queries counter). -/
theorem cache_hit_returns_stored_entry (stats : Stats) (entry : PResult)
    (body : Except Unit (String × ℚ)) (store : Option PResult) (r : PResult) :
    runPipeline stats true (some entry) true body
      = ({ stats with
            total_queries := stats.total_queries + 1
            cache_hits := stats.cache_hits + 1 },
         some entry, .ok entry)
  ∧ cacheSet true store r = some { r with cache_hit := false } :=
  ⟨rfl, rfl⟩

/-- **C10.** Every invocation of the run operation preserves
`successful_queries + failed_queries ≤ total_queries`, and a cache hit
increments exactly `total_queries` and `cache_hits`, leaving
`successful_queries`, `failed_queries` and `total_processing_time`
unchanged. -/
theorem stats_invariant (stats : Stats) (cacheEnabled : Bool)
    (store : Option PResult) (useCache : Bool)
    (body : Except Unit (String × ℚ))
    (h : stats.successful_queries + stats.failed_queries ≤ stats.total_queries) :
    ((runPipeline stats cacheEnabled store useCache body).1.successful_queries
      + (runPipeline stats cacheEnabled store useCache body).1.failed_queries
      ≤ (runPipeline stats cacheEnabled store useCache body).1.total_queries)
  ∧ (∀ entry : PResult, store = some entry → cacheEnabled = true →
      useCache = true →
      (runPipeline stats cacheEnabled store useCache body).1
        = { stats with
            total_queries := stats.total_queries + 1
            cache_hits := stats.cache_hits + 1 }) := by
  constructor
  · cases useCache <;> cases cacheEnabled <;> rcases store with _ | entry <;>
      rcases body with e | ⟨pl, t⟩ <;>
      simp [runPipeline, cacheGet] <;> omega
  · rintro entry rfl rfl rfl
    rfl

/-- **C10, witness.** The statistics theorem applied to a fresh counter
state and a stored cache entry. -/
theorem stats_invariant_witness :
    ((⟨0, 0, 0, 0, 0⟩ : Stats).successful_queries
      + (⟨0, 0, 0, 0, 0⟩ : Stats).failed_queries
      ≤ (⟨0, 0, 0, 0, 0⟩ : Stats).total_queries)
  ∧ (((runPipeline ⟨0, 0, 0, 0, 0⟩ true (some ⟨"p", false⟩) true
        (.ok ("x", 1))).1.successful_queries
      + (runPipeline ⟨0, 0, 0, 0, 0⟩ true (some ⟨"p", false⟩) true
        (.ok ("x", 1))).1.failed_queries
      ≤ (runPipeline ⟨0, 0, 0, 0, 0⟩ true (some ⟨"p", false⟩) true
        (.ok ("x", 1))).1.total_queries)
     ∧ (∀ entry : PResult, some ⟨"p", false⟩ = some entry → true = true →
         true = true →
         (runPipeline ⟨0, 0, 0, 0, 0⟩ true (some ⟨"p", false⟩) true
            (.ok ("x", 1))).1
           = { (⟨0, 0, 0, 0, 0⟩ : Stats) with
               total_queries := (⟨0, 0, 0, 0, 0⟩ : Stats).total_queries + 1
               cache_hits := (⟨0, 0, 0, 0, 0⟩ : Stats).cache_hits + 1 })) :=
  ⟨by decide,
   stats_invariant ⟨0, 0, 0, 0, 0⟩ true (some ⟨"p", false⟩) true
     (.ok ("x", 1)) (by decide)⟩
